import Mathlib

/-!
Shallow embedding of the TLSN-verifier service (Rust) for specification
checking.  The embedding models `src/tlsn-verifier/src/verifier.rs`,
`config.rs`, `attestation.rs`, `key_manager.rs`, `routes.rs` and the
`src/phala-tee/tlsn-verifier` variants of `routes.rs`, `key_manager.rs`
and `dstack_client.rs`.

Modelling conventions:
  - strings are `List Char` (`Str`), mirroring Rust `&str` contents;
  - calls into external libraries (serde JSON parsing, bincode decoding,
    the `tlsn_core` cryptographic `Presentation::verify`, ECDSA signing,
    OS randomness, and the tappd/dstack sockets) are modelled by recording
    their outcomes as explicit inputs (`ExternalEnv`, `AttestationEnv`,
    `KeyInitEnv`), while every step the repository itself performs
    (version pinning, allow-list checks, header and regex extraction,
    hex encoding, status mapping, singleton handling) is implemented;
  - transcript regions are carried as the character strings the Rust code
    obtains from `String::from_utf8_lossy` after `set_unauthed` redaction;
    their raw bytes are recovered through UTF-8 encoding;
  - Rust regex character classes are modelled on characters:
    `\s` as `Char.isWhitespace` and `\d` as `Char.isDigit`.
-/

abbrev Str : Type := List Char

/-- Decidable equality for `Except`, used to settle concrete runs of the
embedded operations by evaluation. -/
instance {ε α : Type} [DecidableEq ε] [DecidableEq α] : DecidableEq (Except ε α)
  | .ok a, .ok b =>
    if h : a = b then .isTrue (by rw [h])
    else .isFalse (fun hh => h (by cases hh; rfl))
  | .error a, .error b =>
    if h : a = b then .isTrue (by rw [h])
    else .isFalse (fun hh => h (by cases hh; rfl))
  | .ok _, .error _ => .isFalse (fun hh => by cases hh)
  | .error _, .ok _ => .isFalse (fun hh => by cases hh)

/-- Lowercases a string character-wise, modelling Rust `str::to_lowercase`
on the ASCII header names the verifier compares. -/
def toLowerStr (s : Str) : Str := s.map Char.toLower

/-- Splits a character list at every occurrence of `c`, keeping empty
segments, like Rust `str::split(c)`. -/
def splitOnChar (c : Char) (s : Str) : List Str :=
  s.foldr (fun ch acc =>
    if ch = c then [] :: acc
    else match acc with
      | [] => [[ch]]
      | a :: rest => (ch :: a) :: rest) [[]]

/-- Models Rust `str::lines`: split on a newline, drop a final empty
segment produced by a trailing newline, and strip one trailing
carriage return from each line.  The empty string has no lines. -/
def rustLines (s : Str) : List Str :=
  if s = [] then []
  else
    let parts := splitOnChar '\n' s
    let parts := if parts.getLast? = some [] then parts.dropLast else parts
    parts.map (fun l => if l.getLast? = some '\r' then l.dropLast else l)

/-- Fuel-bounded loop of `trimStartMatchesL`; each successful strip of a
nonempty prefix shortens the string, so `s.length + 1` fuel is exact. -/
def trimStartAux (pat : Str) : Nat → Str → Str
  | 0, s => s
  | fuel + 1, s =>
    if pat ≠ [] ∧ pat.isPrefixOf s then trimStartAux pat fuel (s.drop pat.length)
    else s

/-- Models Rust `str::trim_start_matches(pat)`: repeatedly removes `pat`
from the front while it is a prefix. -/
def trimStartMatchesL (pat s : Str) : Str :=
  trimStartAux pat (s.length + 1) s

/-- Models Rust `str::trim`: whitespace removed from both ends. -/
def trimL (s : Str) : Str :=
  ((s.dropWhile Char.isWhitespace).reverse.dropWhile Char.isWhitespace).reverse

/-- Lowercase hexadecimal digit for a value below 16, as produced by the
Rust `hex` crate. -/
def hexDigitChar (n : Nat) : Char :=
  if n < 10 then Char.ofNat (48 + n) else Char.ofNat (87 + n)

/-- Two lowercase hex characters for one byte value. -/
def hexByte (b : Nat) : Str := [hexDigitChar ((b / 16) % 16), hexDigitChar (b % 16)]

/-- Models `hex::encode` on a byte sequence (bytes as `Nat` values). -/
def hexEncode (bs : List Nat) : Str := (bs.map hexByte).flatten

/-- UTF-8 encoding of one character as byte values. -/
def utf8EncodeChar (c : Char) : List Nat :=
  let n := c.toNat
  if n < 128 then [n]
  else if n < 2048 then [192 + n / 64, 128 + n % 64]
  else if n < 65536 then [224 + n / 4096, 128 + (n / 64) % 64, 128 + n % 64]
  else [240 + n / 262144, 128 + (n / 4096) % 64, 128 + (n / 64) % 64, 128 + n % 64]

/-- UTF-8 bytes of a string, modelling Rust `str::as_bytes`. -/
def utf8Bytes (s : Str) : List Nat := (s.map utf8EncodeChar).flatten

/-- Value of a hexadecimal digit character, as accepted by `hex::decode`. -/
def hexDigitVal (c : Char) : Option Nat :=
  if 48 ≤ c.toNat ∧ c.toNat ≤ 57 then some (c.toNat - 48)
  else if 97 ≤ c.toNat ∧ c.toNat ≤ 102 then some (c.toNat - 87)
  else if 65 ≤ c.toNat ∧ c.toNat ≤ 70 then some (c.toNat - 55)
  else none

/-- Models `hex::decode`: pairs of hex digits to bytes, failing on odd
length or a non-hex character. -/
def hexDecode : Str → Option (List Nat)
  | [] => some []
  | [_] => none
  | c1 :: c2 :: rest =>
    match hexDigitVal c1, hexDigitVal c2, hexDecode rest with
    | some h, some l, some bs => some ((16 * h + l) :: bs)
    | _, _, _ => none

/-! ## Configuration (`src/tlsn-verifier/src/config.rs`) -/

/-- Models `config::get_server_names`: the optional environment value
`TLSN_VERIFIER_ACCEPTED_SERVER_NAMES` (empty when unset) split on commas,
each entry trimmed, empty entries removed. -/
def get_server_names (env : Option Str) : List Str :=
  ((splitOnChar ',' (env.getD [])).map trimL).filter (fun s => s ≠ [])

/-- Models `config::get_tlsn_core_version`: the optional environment value
`TLSN_VERIFIER_ACCEPTED_VERSION`, defaulting to `0.1.0-alpha.10`. -/
def get_tlsn_core_version (env : Option Str) : Str :=
  env.getD ("0.1.0-alpha.10".toList)

/-! ## Data model (`src/tlsn-verifier/src/types.rs`) -/

/-- Metadata of a presentation envelope (`types.rs`, `Meta`). -/
structure Meta where
  notary_url : Str
  websocket_proxy_url : Option Str
deriving DecidableEq, Repr

/-- The inbound proof envelope (`types.rs`, `PresentationJSON`). -/
structure PresentationJSON where
  version : Str
  data : Str
  meta : Meta
deriving DecidableEq, Repr

/-- The decoded native proof object, reduced to the field the verifier
reads before the cryptographic verify: `presentation.verifying_key().data`
(byte values). -/
structure Presentation where
  verifying_key : List Nat
deriving DecidableEq, Repr

/-- The redacted transcript regions as character strings (post
`set_unauthed` and `from_utf8_lossy`). -/
structure Transcript where
  sent : Str
  recv : Str
deriving DecidableEq, Repr

/-- Output of the external cryptographic verify
(`tlsn_core` `PresentationOutput`): optional asserted server name,
connection time in seconds (`u64`), optional transcript. -/
structure PresentationOutput where
  server_name : Option Str
  time : Nat
  transcript : Option Transcript
deriving DecidableEq, Repr

/-- Verification error carrying a human-readable message
(`types.rs`, `VerificationError`). -/
structure VerificationError where
  message : Str
deriving DecidableEq, Repr

/-- Successful verification result (`types.rs`, `VerificationResult`). -/
structure VerificationResult where
  is_valid : Bool
  server_name : Str
  score : Str
  verifying_key : Str
  sent_hex_encoded : Str
  sent_readable : Str
  recv_hex_encoded : Str
  recv_readable : Str
  time : Int
deriving DecidableEq, Repr

/-- Configuration values read by `verify_proof` from `config.rs`. -/
structure Config where
  accepted_version : Str
  accepted_server_names : List Str
deriving DecidableEq, Repr

/-- Recorded outcomes of the three external stages that `verify_proof`
delegates: serde JSON parsing (`PresentationJSON::from_json_str`),
payload decoding (`PresentationJSON::to_presentation`, hex + bincode),
and the cryptographic verify (`Presentation::verify`).  Each error side
carries the message text interpolated into the verifier's error. -/
structure ExternalEnv where
  parse : Except Str PresentationJSON
  decode : Except Str Presentation
  verify : Except Str PresentationOutput
deriving Repr

/-! ## Regex matchers of `verifier.rs` -/

/-- Consumes a literal prefix, returning the rest, else fails. -/
def matchLit (lit s : Str) : Option Str :=
  if lit.isPrefixOf s then some (s.drop lit.length) else none

/-- Consumes a maximal nonempty run of characters satisfying `p`
(a greedy `+` on a character class). -/
def matchPlusPred (p : Char → Bool) (s : Str) : Option Str :=
  let run := s.takeWhile p
  if run = [] then none else some (s.drop run.length)

/-- Matches the tail `(/users/[^/]+/credit-score)\s+HTTP/1\.1` of the
request-path regex at the start of `s`.  The greedy runs are exact here
because each following literal starts with a character excluded from the
preceding class. -/
def matchPathTail (s : Str) : Bool :=
  match matchLit ("/users/".toList) s with
  | none => false
  | some s1 =>
    match matchPlusPred (fun c => c ≠ '/') s1 with
    | none => false
    | some s2 =>
      match matchLit ("/credit-score".toList) s2 with
      | none => false
      | some s3 =>
        match matchPlusPred Char.isWhitespace s3 with
        | none => false
        | some s4 => List.isPrefixOf ("HTTP/1.1".toList) s4

/-- Matches the optional group `(?:https?://[^/]+)?` at the start of `s`,
returning the rest when the group matches. -/
def matchScheme (s : Str) : Option Str :=
  let afterScheme :=
    match matchLit ("https://".toList) s with
    | some r => some r
    | none => matchLit ("http://".toList) s
  match afterScheme with
  | none => none
  | some r => matchPlusPred (fun c => c ≠ '/') r

/-- Matches the full request-path regex
`GET\s+(?:https?://[^/]+)?(/users/[^/]+/credit-score)\s+HTTP/1\.1`
anchored at the start of `s`.  Leftmost-first semantics: the optional
group is tried before its empty alternative. -/
def matchPathAt (s : Str) : Bool :=
  match matchLit ("GET".toList) s with
  | none => false
  | some s1 =>
    match matchPlusPred Char.isWhitespace s1 with
    | none => false
    | some s2 =>
      (match matchScheme s2 with
       | some s3 => matchPathTail s3
       | none => false)
      || matchPathTail s2

/-- Unanchored search of the request-path regex over `s`
(`Regex::captures` succeeds at the leftmost matching position). -/
def pathMatches : Str → Bool
  | [] => matchPathAt []
  | c :: rest => matchPathAt (c :: rest) || pathMatches rest

/-- Matches `"value"\s*:\s*(\d+)` at the start of `s`, returning the
captured maximal digit run. -/
def matchScoreAt (s : Str) : Option Str :=
  match matchLit ("\"value\"".toList) s with
  | none => none
  | some s1 =>
    match s1.dropWhile Char.isWhitespace with
    | ':' :: s3 =>
      let s4 := s3.dropWhile Char.isWhitespace
      let digits := s4.takeWhile Char.isDigit
      if digits = [] then none else some digits
    | _ => none

/-- Unanchored leftmost search of the score regex `"value"\s*:\s*(\d+)`
over the received transcript, returning the captured digits. -/
def extractScore : Str → Option Str
  | [] => matchScoreAt []
  | c :: rest =>
    match matchScoreAt (c :: rest) with
    | some d => some d
    | none => extractScore rest

/-- Models `chrono::NaiveDateTime::from_timestamp_opt(secs, 0)`: succeeds
exactly when the seconds value lies within chrono's representable range
(about ±262000 years around the epoch). -/
def fromTimestampOpt (secs : Int) : Option Int :=
  if -8334601228800 ≤ secs ∧ secs ≤ 8210298412799 then some secs else none

/-! ## The verifier (`src/tlsn-verifier/src/verifier.rs`, `verify_proof`) -/

/-- Shallow embedding of `verify_proof`.  The twelve steps of the source
are reproduced in order; external outcomes come from `env`.  The two
`Regex::new` calls cannot fail (both patterns are valid), so their error
branches are not reachable and not modelled. -/
def verify_proof (cfg : Config) (env : ExternalEnv) :
    Except VerificationError VerificationResult :=
  match env.parse with
  | .error e => .error ⟨("Invalid JSON format: ".toList) ++ e⟩
  | .ok presentation_json =>
  if presentation_json.version ≠ cfg.accepted_version then
    .error ⟨("Version mismatch: expected '".toList) ++ cfg.accepted_version ++
      ("', got '".toList) ++ presentation_json.version ++ ("'".toList)⟩
  else
  match env.decode with
  | .error e => .error ⟨("Invalid presentation encoding: ".toList) ++ e⟩
  | .ok presentation =>
  let verifying_key := presentation.verifying_key
  if verifying_key = [] then
    .error ⟨"Verifying key is empty or missing".toList⟩
  else
  match env.verify with
  | .error e => .error ⟨("Presentation verification failed: ".toList) ++ e⟩
  | .ok pres_out =>
  let server_name := pres_out.server_name.getD ("<no server_name>".toList)
  if cfg.accepted_server_names.contains server_name then
    let secs : Int :=
      if pres_out.time < 2 ^ 63 then (pres_out.time : Int)
      else (pres_out.time : Int) - 2 ^ 64
    match fromTimestampOpt secs with
    | none => .error ⟨"Invalid or missing timestamp".toList⟩
    | some t =>
    match pres_out.transcript with
    | none => .error ⟨"Missing transcript in presentation output".toList⟩
    | some transcript =>
    let sent := transcript.sent
    let recv := transcript.recv
    match (rustLines sent).find?
        (fun line => List.isPrefixOf ("host:".toList) (toLowerStr line)) with
    | none => .error ⟨"Missing 'Host' header in sent transcript".toList⟩
    | some host_line =>
    let host := trimL (trimStartMatchesL ("host:".toList) host_line)
    if host ≠ server_name then
      .error ⟨("Host header '".toList) ++ host ++
        ("' does not match server name '".toList) ++ server_name ++ ("'".toList)⟩
    else
    match (rustLines sent).head? with
    | none => .error ⟨"Missing request line in sent transcript".toList⟩
    | some request_line =>
    if pathMatches request_line then
      match extractScore recv with
      | none => .error ⟨"Credit score value is missing from response".toList⟩
      | some credit_score =>
        .ok { is_valid := true
              server_name := server_name
              score := credit_score
              verifying_key := hexEncode verifying_key
              sent_hex_encoded := hexEncode (utf8Bytes sent)
              sent_readable := sent
              recv_hex_encoded := hexEncode (utf8Bytes recv)
              recv_readable := recv
              time := t }
    else .error ⟨"Request path is missing or invalid".toList⟩
  else
    .error ⟨("Server name '".toList) ++ server_name ++
      ("' is not in the accepted list".toList)⟩

/-! ## Signing identity (`key_manager.rs` / `types.rs`, `KeyMaterial`) -/

/-- Abstract ECDSA key pair: the p256/k256 signature math is external, so
a key is modelled by its public-key bytes and its (deterministic) signing
function from message bytes to signature bytes. -/
structure SigningKey where
  sign : List Nat → List Nat
  public_key_bytes : List Nat

/-- Provenance of the signing key (`key_manager.rs`, `KeySource`). -/
inductive KeySource
  | Tappd
  | Random
deriving DecidableEq, Repr

/-- The process signing identity (`key_manager.rs`, `KeyMaterial`). -/
structure KeyMaterial where
  signing_key : SigningKey
  source : KeySource
  certificate_chain : Option (List Str)

/-- Response of the tappd `DeriveKey` endpoint
(`types.rs`, `GetKeyResponse`). -/
structure GetKeyResponse where
  key : Str
  certificate_chain : List Str
deriving DecidableEq, Repr

/-- Models `KeyMaterial::new_random`; `rk` is the key OS randomness
produces for this run. -/
def KeyMaterial.new_random (rk : SigningKey) : KeyMaterial :=
  { signing_key := rk, source := KeySource.Random, certificate_chain := none }

/-- Models `KeyMaterial::from_get_key_response`: `parsed` records the
outcome of the external `SigningKey::from_pkcs8_pem` on `resp.key`; on
parse failure the source falls back to `new_random` (the Rust function
returns `Result` but never an error). -/
def KeyMaterial.from_get_key_response (parsed : Option SigningKey)
    (rk : SigningKey) (resp : GetKeyResponse) : KeyMaterial :=
  match parsed with
  | some k =>
    { signing_key := k, source := KeySource.Tappd,
      certificate_chain := some resp.certificate_chain }
  | none => KeyMaterial.new_random rk

/-- Models `KeyMaterial::public_key_bytes` (uncompressed point bytes). -/
def KeyMaterial.public_key_bytes (km : KeyMaterial) : List Nat :=
  km.signing_key.public_key_bytes

/-- Models `KeyMaterial::encode_verify_key`: hex of the public key. -/
def KeyMaterial.encode_verify_key (km : KeyMaterial) : Str :=
  hexEncode km.public_key_bytes

/-- Models `KeyMaterial::sign_message`: sign the given message bytes,
returning the signature bytes. -/
def KeyMaterial.sign_message (km : KeyMaterial) (message : List Nat) : List Nat :=
  km.signing_key.sign message

/-- Error of key-manager operations (`types.rs`, `KeyManagerError`). -/
structure KeyManagerError where
  message : Str
deriving DecidableEq, Repr

/-- External calls to the local hardware key service that an operation
performs, recorded as a trace. -/
inductive HardwareCall
  | deriveKey
deriving DecidableEq, Repr

/-- Recorded outcomes of the external effects of one run of
`init_key_material_from_tappd_socket`: the tappd `DeriveKey` call, the
PKCS8 parse of the returned key, and the OS-random fallback key. -/
structure KeyInitEnv where
  derive_result : Except Str GetKeyResponse
  parse_key : Option SigningKey
  random_key : SigningKey

/-- Models `init_key_material_from_tappd_socket` together with the
`KEY_MATERIAL : OnceCell` singleton it writes.  `stored` is the cell
before the call; the result is the returned `Result`, the cell after the
call, and the trace of hardware calls performed.  The source awaits
`derive_key_from_tappd` unconditionally before attempting
`KEY_MATERIAL.set`, so the `deriveKey` call appears in the trace on every
invocation; `OnceCell::set` fails without overwriting when the cell is
already occupied. -/
def init_key_material_from_tappd_socket (stored : Option KeyMaterial)
    (env : KeyInitEnv) :
    Except KeyManagerError Unit × Option KeyMaterial × List HardwareCall :=
  let key_material :=
    match env.derive_result with
    | .ok key_response =>
      KeyMaterial.from_get_key_response env.parse_key env.random_key key_response
    | .error _ => KeyMaterial.new_random env.random_key
  match stored with
  | some km =>
    (.error ⟨"Key material already initialized".toList⟩, some km,
      [HardwareCall.deriveKey])
  | none => (.ok (), some key_material, [HardwareCall.deriveKey])

/-! ## Phala variant (`src/phala-tee/tlsn-verifier/src/key_manager.rs`) -/

/-- The phala-tee `KeyMaterial` holds only the signing key (plus a client
handle irrelevant here). -/
structure PhalaKeyMaterial where
  signing_key : SigningKey

/-- Models the phala-tee `KeyMaterial::new_instance`: derive a key string
from the dstack client, hex-decode it, and build the signing key;
`from_slice` records the outcome of the external `SigningKey::from_slice`.
Every failure goes through `.expect`, i.e. a panic, modelled as `none`. -/
def phala_new_instance (derive_result : Except Str Str)
    (from_slice : List Nat → Option SigningKey) : Option PhalaKeyMaterial :=
  match derive_result with
  | .error _ => none
  | .ok key =>
    match hexDecode key with
    | none => none
    | some bytes => (from_slice bytes).map (fun k => { signing_key := k })

/-- Models the phala-tee `KeyMaterial::init` with its `Once` guard:
if initialization already completed it returns at once without touching
the dstack client; otherwise it builds a new instance (which may panic,
modelled by the outer `none`) and stores it.  The result is the stored
cell after the call plus the trace of hardware calls. -/
def phala_init (stored : Option PhalaKeyMaterial)
    (derive_result : Except Str Str)
    (from_slice : List Nat → Option SigningKey) :
    Option (Option PhalaKeyMaterial × List HardwareCall) :=
  match stored with
  | some km => some (some km, [])
  | none =>
    (phala_new_instance derive_result from_slice).map
      (fun km => (some km, [HardwareCall.deriveKey]))

/-! ## Attestation (`src/tlsn-verifier/src/attestation.rs`) -/

/-- Response of the tappd `TdxQuote` endpoint
(`types.rs`, `GetQuoteResponse`). -/
structure GetQuoteResponse where
  quote : Str
  event_log : Str
deriving DecidableEq, Repr

/-- Attestation error (`types.rs`, `AttestationError`). -/
structure AttestationError where
  message : Str
deriving DecidableEq, Repr

/-- The signed attestation payload (`types.rs`, `SignedAttestation`). -/
structure SignedAttestation where
  quote : Str
  signature_hex_encoded : Str
  verifying_key_hex_encoded : Str
  verifying_key_certificate_chain : Option (List Str)
deriving DecidableEq, Repr

/-- Models `attestation.rs::encode_message_hex`: `hex::encode` of the
UTF-8 bytes of the message string. -/
def encode_message_hex (message : Str) : Str :=
  hexEncode (utf8Bytes message)

/-- Models `attestation.rs::sign_message`: sign the UTF-8 bytes of the
(hex) message string and hex-encode the signature bytes. -/
def sign_message (km : KeyMaterial) (message_hex : Str) : Str :=
  hexEncode (km.sign_message (utf8Bytes message_hex))

/-- Recorded outcomes of the external effects of the attestation path:
the key-material singleton (`try_get_key_material`) and the result of
`read_attestation_report` (the tappd `TdxQuote` round trip). -/
structure AttestationEnv where
  key_material : Option KeyMaterial
  quote_response : Except AttestationError GetQuoteResponse

/-- Models `get_attestation_report_with_signature`: require the key
singleton, fetch the quote, hex-encode the quote string, sign that
hex string, and assemble the `SignedAttestation`. -/
def get_attestation_report_with_signature (env : AttestationEnv) :
    Except AttestationError SignedAttestation :=
  match env.key_material with
  | none => .error ⟨"Key material not initialized".toList⟩
  | some key_material =>
  match env.quote_response with
  | .error e => .error e
  | .ok report =>
    let report_data := report.quote
    let report_data_hex := encode_message_hex report_data
    let signature := sign_message key_material report_data_hex
    let encoded_key := key_material.encode_verify_key
    .ok { quote := report_data
          signature_hex_encoded := signature
          verifying_key_hex_encoded := encoded_key
          verifying_key_certificate_chain := key_material.certificate_chain }

/-! ## HTTP routes (`routes.rs`, both variants) -/

/-- HTTP statuses produced by the route handlers. -/
inductive HttpStatus
  | ok200
  | badRequest400
  | internalServerError500
  | serviceUnavailable503
deriving DecidableEq, Repr

/-- Combined response body (`types.rs`, `VerificationResponse`). -/
structure VerificationResponse where
  verification : Except VerificationError VerificationResult
  attestation : Except AttestationError SignedAttestation

/-- Models `verify_proof_route` (`src/tlsn-verifier/src/routes.rs` and
`src/phala-tee/tlsn-verifier/src/routes.rs`, identical control flow):
run the verifier, then unconditionally run the attestation path, combine
both results, and map them to a status: 200 when both succeed, 400 when
only verification failed, 500 whenever attestation failed. -/
def verify_proof_route (cfg : Config) (env : ExternalEnv)
    (attEnv : AttestationEnv) : HttpStatus × VerificationResponse :=
  let verification := verify_proof cfg env
  let attestation := get_attestation_report_with_signature attEnv
  let response : VerificationResponse :=
    { verification := verification, attestation := attestation }
  match response.verification, response.attestation with
  | .ok _, .ok _ => (HttpStatus.ok200, response)
  | .error _, .ok _ => (HttpStatus.badRequest400, response)
  | _, .error _ => (HttpStatus.internalServerError500, response)

/-- Models the `health_check` handler of `src/tlsn-verifier/src/routes.rs`.
The handler body is `HttpResponse::Ok().body("OK")`; it performs no call
to the hardware service, so its result ignores the reachability state,
which is passed here only to express that independence. -/
def health_check (hardwareReachable : Bool) : HttpStatus :=
  HttpStatus.ok200

/-- Models `DStackClient::is_reachable`
(`src/phala-tee/tlsn-verifier/src/dstack_client.rs`): `resp` is the
outcome of the HTTP GET on `/dstack/` (transport error or status code);
a success status yields `Ok(true)`, any other status a `ServerError`,
and a transport error propagates. -/
def dstack_is_reachable (resp : Except Str Nat) : Except Str Bool :=
  match resp with
  | .error e => .error e
  | .ok status =>
    if 200 ≤ status ∧ status < 300 then .ok true
    else .error (("Service not reachable, status: ".toList) ++
      Nat.toDigits 10 status)

/-- Models the `health_check` handler of
`src/phala-tee/tlsn-verifier/src/routes.rs`:
`is_reachable().await.unwrap_or(false)` decides between 200 and 503. -/
def phala_health_check (resp : Except Str Nat) : HttpStatus :=
  let reachable :=
    match dstack_is_reachable resp with
    | .ok b => b
    | .error _ => false
  if reachable then HttpStatus.ok200 else HttpStatus.serviceUnavailable503

/-! ## Concrete scenarios used by the claim theorems -/

/-- Envelope metadata with no interesting content. -/
def meta0 : Meta := { notary_url := [], websocket_proxy_url := none }

/-- Configuration with the default accepted version and the allow-list
entry `example.com`. -/
def exampleConfig : Config :=
  { accepted_version := ("0.1.0-alpha.10").toList
    accepted_server_names := [("example.com").toList] }

/-- Envelope asserting the default accepted version. -/
def pjDefault : PresentationJSON :=
  { version := ("0.1.0-alpha.10").toList, data := ("00").toList, meta := meta0 }

/-- Sent transcript of the round-trip scenario, with the HTTP-cased
`Host:` header. -/
def c1_sent : Str :=
  ("GET /users/42/credit-score HTTP/1.1\r\nHost: example.com\r\n\r\n").toList

/-- Sent transcript identical to `c1_sent` except the header name is
spelled in lowercase. -/
def c1_sent_lower : Str :=
  ("GET /users/42/credit-score HTTP/1.1\r\nhost: example.com\r\n\r\n").toList

/-- Received transcript of the round-trip scenario. -/
def c1_recv : Str := ("HTTP/1.1 200 OK\r\n\r\n\x7b\"value\": 750\x7d").toList

/-- External outcomes of the round-trip scenario: well-formed envelope,
nonempty verifying key, successful cryptographic verify asserting
`example.com`, transcript as sent. -/
def c1_env (sent : Str) : ExternalEnv :=
  { parse := Except.ok pjDefault
    decode := Except.ok { verifying_key := [4, 1, 2] }
    verify := Except.ok
      { server_name := some (("example.com").toList)
        time := 1700000000
        transcript := some { sent := sent, recv := c1_recv } } }

/-- C1: the spec's round-trip (sent transcript containing
`Host: example.com` and `GET /users/42/credit-score HTTP/1.1`, response
containing `"value": 750`, asserted server `example.com` in the
allow-list) is REJECTED by `verify_proof`: the Host line is found
case-insensitively but `trim_start_matches("host:")` strips only the
lowercase spelling, so the computed host value is the whole line
`Host: example.com` and the comparison with the server name fails.  The
identical scenario with a lowercase `host:` header succeeds with score
`750`, server `example.com` and `is_valid = true`, isolating the header
casing as the only obstacle. -/
theorem C1_round_trip_rejected_by_host_check :
    verify_proof exampleConfig (c1_env c1_sent) =
      Except.error
        ⟨("Host header 'Host: example.com' does not match server name 'example.com'").toList⟩ ∧
    (verify_proof exampleConfig (c1_env c1_sent_lower)).toOption.map
        (fun r => (r.is_valid, r.server_name, r.score)) =
      some (true, ("example.com").toList, ("750").toList) := by
  exact ⟨by decide, by decide⟩

/-- Allow-list configuration for the C7 scenario. -/
def c7_cfg : Config :=
  { accepted_version := ("0.1.0-alpha.10").toList
    accepted_server_names := [("bank.example").toList] }

/-- External outcomes of the C7 rejection scenario: HTTP-cased `Host:`
header matching the asserted server `bank.example`. -/
def c7_env : ExternalEnv :=
  { parse := Except.ok pjDefault
    decode := Except.ok { verifying_key := [4, 1] }
    verify := Except.ok
      { server_name := some (("bank.example").toList)
        time := 1700000001
        transcript := some
          { sent := ("GET /users/7/credit-score HTTP/1.1\r\nHost: bank.example\r\n\r\n").toList
            recv := ("\x7b\"value\": 810\x7d").toList } } }

/-- Allow-list configuration for the C7 acceptance scenario. -/
def c7b_cfg : Config :=
  { accepted_version := ("0.1.0-alpha.10").toList
    accepted_server_names := [("x").toList] }

/-- External outcomes of the C7 acceptance scenario: the sent transcript
carries the line `host:host: x`, whose header value is `host: x`. -/
def c7b_env : ExternalEnv :=
  { parse := Except.ok pjDefault
    decode := Except.ok { verifying_key := [4, 1] }
    verify := Except.ok
      { server_name := some (("x").toList)
        time := 1700000002
        transcript := some
          { sent := ("GET /users/9/credit-score HTTP/1.1\nhost:host: x").toList
            recv := ("\"value\":5").toList } } }

/-- C7: both directions of the Host-consistency claim fail on the code.
A proof whose Host header value (after case-insensitive name match and
trimming) equals the asserted identity `bank.example` is rejected,
because the case-sensitive strip leaves `Host: bank.example` as the
compared value.  Conversely a transcript whose actual Host header value
is `host: x` (line `host:host: x`) is accepted for asserted identity `x`,
because `trim_start_matches` strips the prefix `host:` repeatedly; the
accepted identity differs from the true header value. -/
theorem C7_host_consistency_bug :
    verify_proof c7_cfg c7_env =
      Except.error
        ⟨("Host header 'Host: bank.example' does not match server name 'bank.example'").toList⟩ ∧
    (verify_proof c7b_cfg c7b_env).toOption.map
        (fun r => (r.is_valid, r.server_name)) = some (true, ("x").toList) ∧
    trimL (List.drop 5 (("host:host: x").toList)) = ("host: x").toList ∧
    (("host: x").toList : Str) ≠ ("x").toList := by
  exact ⟨by decide, by decide, by decide, by decide⟩

/-- Signing key whose abstract signature function is the identity, so
the signed message is directly visible in the signature bytes. -/
def c2_sk : SigningKey := { sign := fun m => m, public_key_bytes := [4, 9, 9] }

/-- Key material wrapping `c2_sk`. -/
def c2_km : KeyMaterial :=
  { signing_key := c2_sk, source := KeySource.Tappd, certificate_chain := none }

/-- Quote response whose quote string is `ab`. -/
def c2_quote : GetQuoteResponse := { quote := ("ab").toList, event_log := ("[]").toList }

/-- Attestation environment for the C2 scenario. -/
def c2_env : AttestationEnv :=
  { key_material := some c2_km, quote_response := Except.ok c2_quote }

/-- C2: the signed message is NOT the quote's raw bytes.  With an
identity signer and quote string `ab`, signing the raw quote bytes would
give signature hex `6162`, but the code first hex-encodes the quote
(`ab` becomes `6162`) and signs the bytes of that hex string, producing
signature hex `36313632` — a re-encoding of the quote is signed. -/
theorem C2_signed_message_counterexample :
    get_attestation_report_with_signature c2_env =
      Except.ok
        { quote := ("ab").toList
          signature_hex_encoded := ("36313632").toList
          verifying_key_hex_encoded := ("040909").toList
          verifying_key_certificate_chain := none } ∧
    hexEncode (c2_km.sign_message (utf8Bytes (("ab").toList))) = ("6162").toList ∧
    (("36313632").toList : Str) ≠ ("6162").toList := by
  exact ⟨by decide, by decide, by decide⟩

/-- C2 (amended): for every attestation response assembled by the binder,
the signature is `KeyMaterial.sign` applied to the UTF-8 bytes of the
hex-encoding of the quote string (not to the raw quote), and the quote,
verifying key and certificate chain are taken from the quote response and
the key material. -/
theorem C2_signature_is_over_hex_of_quote (km : KeyMaterial) (report : GetQuoteResponse) :
    get_attestation_report_with_signature
        { key_material := some km, quote_response := Except.ok report } =
      Except.ok
        { quote := report.quote
          signature_hex_encoded :=
            hexEncode (km.sign_message (utf8Bytes (hexEncode (utf8Bytes report.quote))))
          verifying_key_hex_encoded := km.encode_verify_key
          verifying_key_certificate_chain := km.certificate_chain } := by
  simp [get_attestation_report_with_signature, sign_message, encode_message_hex,
    KeyMaterial.sign_message]

/-- C3: the `tlsn-verifier` health handler returns 200 even when the
hardware service is unreachable, contradicting the claimed 200-iff-
reachable behaviour. -/
theorem C3_health_counterexample : health_check false = HttpStatus.ok200 := rfl

/-- C3 (amended): the `tlsn-verifier` variant of `/health` always returns
200, ignoring the hardware service; the `phala-tee` variant returns 200
exactly when the dstack service round trip reports reachable
(a success HTTP status), and 503 in every other case. -/
theorem C3_health_amended :
    (∀ hw : Bool, health_check hw = HttpStatus.ok200) ∧
    (∀ resp : Except Str Nat,
      (phala_health_check resp = HttpStatus.ok200 ↔
        dstack_is_reachable resp = Except.ok true) ∧
      (phala_health_check resp = HttpStatus.serviceUnavailable503 ↔
        dstack_is_reachable resp ≠ Except.ok true)) := by
  refine ⟨fun hw => rfl, fun resp => ?_⟩
  cases resp with
  | error e => simp [phala_health_check, dstack_is_reachable]
  | ok status =>
    by_cases h : 200 ≤ status ∧ status < 300
    · simp [phala_health_check, dstack_is_reachable, h]
    · simp [phala_health_check, dstack_is_reachable, h]

/-- Witness for C3 (amended) at concrete inputs: status 200 is reachable,
status 500 is not. -/
theorem C3_health_amended_witness :
    health_check false = HttpStatus.ok200 ∧
    phala_health_check (Except.ok 200) = HttpStatus.ok200 ∧
    phala_health_check (Except.ok 500) = HttpStatus.serviceUnavailable503 :=
  ⟨C3_health_amended.1 false,
   (C3_health_amended.2 (Except.ok 200)).1.mpr (by decide),
   (C3_health_amended.2 (Except.ok 500)).2.mpr (by decide)⟩

/-- Fallback key produced by OS randomness in the C4 scenario. -/
def c4_sk : SigningKey := { sign := fun m => m, public_key_bytes := [4, 2] }

/-- Key-initialization environment in which the tappd derive call fails
and no parsed key is available. -/
def c4_env : KeyInitEnv :=
  { derive_result := Except.error (("connection refused").toList)
    parse_key := none
    random_key := c4_sk }

/-- C4: in the phala-tee variant, a failed key derivation or an
unparsable key does NOT fall back to a random key: `new_instance` goes
through `.expect`, i.e. the initialization panics (modelled `none`),
both on a transport error and on a malformed (non-hex) key string. -/
theorem C4_phala_init_panics :
    phala_new_instance (Except.error (("connection refused").toList)) (fun _ => none) = none ∧
    phala_new_instance (Except.ok (("zz").toList)) (fun _ => some c4_sk) = none := by
  exact ⟨rfl, rfl⟩

/-- C4 (amended): in the `tlsn-verifier` variant
(`init_key_material_from_tappd_socket` with the singleton unset), a
failed derive call or a failed key parse makes initialization succeed
with the locally generated random key, whose source is `Random` and
whose signing function is total; the phala-tee `new_instance`, by
contrast, panics on every failed derive call. -/
theorem C4_fallback_amended (env : KeyInitEnv)
    (hfail : (∃ e, env.derive_result = Except.error e) ∨ env.parse_key = none) :
    (init_key_material_from_tappd_socket none env).1 = Except.ok () ∧
    (init_key_material_from_tappd_socket none env).2.1 =
      some (KeyMaterial.new_random env.random_key) ∧
    (KeyMaterial.new_random env.random_key).source = KeySource.Random ∧
    (∀ m, (KeyMaterial.new_random env.random_key).sign_message m = env.random_key.sign m) ∧
    (∀ (e : Str) (fs : List Nat → Option SigningKey),
      phala_new_instance (Except.error e) fs = none) := by
  obtain ⟨dr, pk, rk⟩ := env
  rcases hfail with ⟨e, he⟩ | hp
  · cases he
    exact ⟨rfl, rfl, rfl, fun m => rfl, fun e fs => rfl⟩
  · cases hp
    cases dr with
    | error e => exact ⟨rfl, rfl, rfl, fun m => rfl, fun e fs => rfl⟩
    | ok resp =>
      exact ⟨rfl, rfl, rfl, fun m => rfl, fun e fs => rfl⟩

/-- Witness for C4 (amended): the concrete failed-derive environment
initializes successfully with the random fallback key. -/
theorem C4_fallback_amended_witness :
    ((∃ e, c4_env.derive_result = Except.error e) ∨ c4_env.parse_key = none) ∧
    ((init_key_material_from_tappd_socket none c4_env).1 = Except.ok () ∧
     (init_key_material_from_tappd_socket none c4_env).2.1 =
       some (KeyMaterial.new_random c4_env.random_key) ∧
     (KeyMaterial.new_random c4_env.random_key).source = KeySource.Random ∧
     (∀ m, (KeyMaterial.new_random c4_env.random_key).sign_message m =
        c4_env.random_key.sign m) ∧
     (∀ (e : Str) (fs : List Nat → Option SigningKey),
       phala_new_instance (Except.error e) fs = none)) :=
  ⟨Or.inr rfl, C4_fallback_amended c4_env (Or.inr rfl)⟩

/-- Envelope with version `9.9.9`, mismatching the accepted version. -/
def c5_pj : PresentationJSON :=
  { version := ("9.9.9").toList, data := [], meta := meta0 }

/-- C5: an envelope whose version differs from the configured accepted
version is rejected with the version-mismatch error, whatever the
outcomes of payload decoding and of the cryptographic verify — the
rejection depends on neither, so it happens before the payload is
decoded into a proof object and before any cryptographic verification. -/
theorem C5_version_mismatch_rejected_first (cfg : Config) (pj : PresentationJSON)
    (decode : Except Str Presentation) (verify : Except Str PresentationOutput)
    (hver : pj.version ≠ cfg.accepted_version) :
    verify_proof cfg { parse := Except.ok pj, decode := decode, verify := verify } =
      Except.error
        ⟨("Version mismatch: expected '").toList ++ cfg.accepted_version ++
          ("', got '").toList ++ pj.version ++ ("'").toList⟩ := by
  simp [verify_proof, hver]

/-- Witness for C5 at a concrete mismatching envelope; the decode and
verify outcomes are failure markers that are provably never consulted. -/
theorem C5_version_mismatch_witness :
    (c5_pj.version ≠ exampleConfig.accepted_version) ∧
    verify_proof exampleConfig
        { parse := Except.ok c5_pj
          decode := Except.error (("unused").toList)
          verify := Except.error (("unused").toList) } =
      Except.error
        ⟨("Version mismatch: expected '0.1.0-alpha.10', got '9.9.9'").toList⟩ :=
  ⟨by decide,
   (C5_version_mismatch_rejected_first exampleConfig c5_pj
      (Except.error (("unused").toList)) (Except.error (("unused").toList))
      (by decide)).trans (by decide)⟩

/-- Stored key material for the C9 scenario. -/
def c9_km : KeyMaterial :=
  KeyMaterial.new_random { sign := fun m => m, public_key_bytes := [4, 5, 6] }

/-- Key-initialization environment for the second call of the C9
scenario. -/
def c9_env : KeyInitEnv :=
  { derive_result := Except.error (("refused").toList)
    parse_key := none
    random_key := { sign := fun m => m, public_key_bytes := [7, 8, 9] } }

/-- C9: a second initialization attempt on the already-initialized
singleton is NOT a no-op: it returns the `Key material already
initialized` error, and its call trace shows the tappd derive-key call
is performed again before the singleton check. -/
theorem C9_reinit_counterexample :
    (init_key_material_from_tappd_socket (some c9_km) c9_env).1 =
      Except.error ⟨("Key material already initialized").toList⟩ ∧
    (init_key_material_from_tappd_socket (some c9_km) c9_env).2.2 =
      [HardwareCall.deriveKey] := by
  exact ⟨rfl, rfl⟩

/-- C9 (amended): once initialized, the stored signing identity is never
overwritten — every later initialization attempt leaves the singleton
unchanged, so all callers observe the same key — but in the
`tlsn-verifier` variant the later attempt returns an
already-initialized error (not a no-op) and still performs the tappd
derive-key call; the phala-tee `init` is a true no-op that performs no
hardware call. -/
theorem C9_singleton_amended :
    (∀ (km : KeyMaterial) (env : KeyInitEnv),
      (init_key_material_from_tappd_socket (some km) env).2.1 = some km ∧
      (init_key_material_from_tappd_socket (some km) env).1 =
        Except.error ⟨("Key material already initialized").toList⟩ ∧
      (init_key_material_from_tappd_socket (some km) env).2.2 =
        [HardwareCall.deriveKey]) ∧
    (∀ (km : PhalaKeyMaterial) (d : Except Str Str)
       (fs : List Nat → Option SigningKey),
      phala_init (some km) d fs = some (some km, [])) := by
  exact ⟨fun km env => ⟨rfl, rfl, rfl⟩, fun km d fs => rfl⟩

/-- C8: the route always carries both outcomes independently — the
response's verification slot is exactly the verifier's result and its
attestation slot is exactly the attestation path's result, for every
combination of outcomes (so the attestation path is executed, and its
result reported, regardless of the verification outcome) — and the
status is 200 exactly when both succeeded, 400 exactly when only
verification failed, and 500 exactly when attestation failed. -/
theorem C8_route_behaviour (cfg : Config) (env : ExternalEnv) (attEnv : AttestationEnv) :
    (verify_proof_route cfg env attEnv).2.verification = verify_proof cfg env ∧
    (verify_proof_route cfg env attEnv).2.attestation =
      get_attestation_report_with_signature attEnv ∧
    ((verify_proof_route cfg env attEnv).1 = HttpStatus.ok200 ↔
      (verify_proof cfg env).isOk = true ∧
      (get_attestation_report_with_signature attEnv).isOk = true) ∧
    ((verify_proof_route cfg env attEnv).1 = HttpStatus.badRequest400 ↔
      (verify_proof cfg env).isOk = false ∧
      (get_attestation_report_with_signature attEnv).isOk = true) ∧
    ((verify_proof_route cfg env attEnv).1 = HttpStatus.internalServerError500 ↔
      (get_attestation_report_with_signature attEnv).isOk = false) := by
  cases hv : verify_proof cfg env <;>
    cases ha : get_attestation_report_with_signature attEnv <;>
      simp [verify_proof_route, hv, ha, Except.isOk, Except.toBool]

/-- Witness for C8 at concrete inputs: a passing proof with a passing
attestation maps to 200, and the same attestation with a failing proof
maps to 400 (the attestation slot still being produced). -/
theorem C8_route_behaviour_witness :
    (verify_proof_route exampleConfig (c1_env c1_sent_lower) c2_env).1 =
      HttpStatus.ok200 ∧
    (verify_proof_route exampleConfig (c1_env c1_sent) c2_env).1 =
      HttpStatus.badRequest400 :=
  ⟨(C8_route_behaviour exampleConfig (c1_env c1_sent_lower) c2_env).2.2.1.mpr
     ⟨by decide, by decide⟩,
   (C8_route_behaviour exampleConfig (c1_env c1_sent) c2_env).2.2.2.1.mpr
     ⟨by decide, by decide⟩⟩

/-! ## Structural lemmas about the verifier -/

/-- A literal match returns a suffix of its input. -/
theorem matchLit_suffix (lit s s1 : Str) (h : matchLit lit s = some s1) : s1 <:+ s := by
  unfold matchLit at h
  split at h
  · cases h; exact List.drop_suffix _ _
  · cases h

/-- A successful score match at a position yields a nonempty all-digit
capture that is a contiguous part of the searched string. -/
theorem matchScoreAt_spec (s d : Str) (h : matchScoreAt s = some d) :
    d ≠ [] ∧ d.all Char.isDigit = true ∧ d <:+: s := by
  unfold matchScoreAt at h
  split at h
  · cases h
  next s1 hm =>
    split at h
    next s3 hd =>
      have h2 :
          (if List.takeWhile Char.isDigit (List.dropWhile Char.isWhitespace s3) = []
           then none
           else some (List.takeWhile Char.isDigit (List.dropWhile Char.isWhitespace s3))) =
            some d := h
      clear h
      split at h2
      · cases h2
      next hdig =>
        cases h2
        refine ⟨hdig, ?_, ?_⟩
        · exact List.all_eq_true.mpr (fun x hx => List.mem_takeWhile_imp hx)
        · have h1 : s1 <:+ s := matchLit_suffix _ _ _ hm
          have h2 : ':' :: s3 <:+ s1 := hd ▸ List.dropWhile_suffix _
          have h3 : s3 <:+ s1 := (List.suffix_cons ':' s3).trans h2
          have h4 : s3.dropWhile Char.isWhitespace <:+ s3 := List.dropWhile_suffix _
          have h5 := List.takeWhile_prefix (l := s3.dropWhile Char.isWhitespace) Char.isDigit
          exact h5.isInfix.trans ((h4.trans (h3.trans h1)).isInfix)
    next => cases h

/-- The extracted score is a nonempty digit string occurring verbatim
(as a contiguous substring) in the searched transcript. -/
theorem extractScore_spec (s d : Str) (h : extractScore s = some d) :
    d ≠ [] ∧ d.all Char.isDigit = true ∧ d <:+: s := by
  induction s with
  | nil => exact matchScoreAt_spec [] d h
  | cons c rest ih =>
    unfold extractScore at h
    cases hm : matchScoreAt (c :: rest) with
    | some d0 =>
      rw [hm] at h
      cases h
      exact matchScoreAt_spec _ _ hm
    | none =>
      rw [hm] at h
      obtain ⟨h1, h2, h3⟩ := ih h
      exact ⟨h1, h2, List.infix_cons h3⟩

/-- Inversion on a successful run of `verify_proof`: every stage must
have succeeded, the verifying key is nonempty, the server name is the
asserted one and is allow-listed, the transcript fields are carried
verbatim, the score comes from `extractScore` on the received region,
and `is_valid` is `true`. -/
theorem verify_proof_ok_inversion (cfg : Config) (env : ExternalEnv)
    (r : VerificationResult) (h : verify_proof cfg env = Except.ok r) :
    (∃ pj, env.parse = Except.ok pj ∧ pj.version = cfg.accepted_version) ∧
    (∃ p, env.decode = Except.ok p ∧ p.verifying_key ≠ [] ∧
      r.verifying_key = hexEncode p.verifying_key) ∧
    (∃ out, env.verify = Except.ok out ∧
      r.server_name = out.server_name.getD (("<no server_name>").toList) ∧
      ∃ t, out.transcript = some t ∧ r.sent_readable = t.sent ∧
        r.recv_readable = t.recv) ∧
    cfg.accepted_server_names.contains r.server_name = true ∧
    extractScore r.recv_readable = some r.score ∧
    r.is_valid = true := by
  obtain ⟨parse, decode, verify⟩ := env
  cases parse with
  | error e => simp [verify_proof] at h
  | ok pj =>
  by_cases hv : pj.version = cfg.accepted_version
  case neg => simp [verify_proof, hv] at h
  case pos =>
  cases decode with
  | error e => simp [verify_proof, hv] at h
  | ok p =>
  by_cases hk : p.verifying_key = []
  case pos => simp [verify_proof, hv, hk] at h
  case neg =>
  cases verify with
  | error e => simp [verify_proof, hv, hk] at h
  | ok out =>
  obtain ⟨sn, tim, tr⟩ := out
  simp [verify_proof, hv, hk] at h
  split at h
  next hmem =>
    split at h
    next => simp at h
    next t htime =>
      split at h
      next => simp at h
      next transcript =>
        split at h
        next => simp at h
        next host_line hfind =>
          split at h
          next hhost =>
            split at h
            next => simp at h
            next request_line hhead =>
              split at h
              next hpath =>
                split at h
                next => simp at h
                next credit_score hscore =>
                  rw [Except.ok.injEq] at h
                  subst h
                  refine ⟨⟨pj, rfl, hv⟩, ⟨p, rfl, hk, rfl⟩,
                    ⟨⟨sn, tim, some transcript⟩, rfl, rfl, transcript, rfl, rfl, rfl⟩,
                    ?_, ?_, rfl⟩
                  · simpa using hmem
                  · exact hscore
              next hpath => simp at h
          next hhost => simp at h
  next hmem => simp at h

/-- External outcomes with an empty verifying key and a failing
cryptographic verify, exercising the order of the two checks. -/
def c6_env : ExternalEnv :=
  { parse := Except.ok pjDefault
    decode := Except.ok { verifying_key := [] }
    verify := Except.error (("boom").toList) }

/-- C6: the verifying-key emptiness check does NOT occur after the
cryptographic verify.  On an input whose decoded presentation has an
empty verifying key and whose verify step would fail with `boom`, the
code reports the empty-key error, not the verify error — the key check
fires before the verify step is consulted. -/
theorem C6_order_counterexample :
    verify_proof exampleConfig c6_env =
      Except.error ⟨("Verifying key is empty or missing").toList⟩ ∧
    c6_env.verify = Except.error (("boom").toList) ∧
    verify_proof exampleConfig c6_env ≠
      Except.error ⟨("Presentation verification failed: boom").toList⟩ := by
  exact ⟨by decide, rfl, by decide⟩

/-- C6 (amended): every accepted proof has a nonempty verifying key and
an allow-listed (case-sensitive, exact) server name; the verifying-key
emptiness check happens BEFORE the cryptographic verify — its rejection
is independent of the verify outcome — while the server-name check
happens after it: with a nonempty key, a failing verify surfaces as the
verification-failed error. -/
theorem C6_checks_amended :
    (∀ (cfg : Config) (env : ExternalEnv) (r : VerificationResult),
      verify_proof cfg env = Except.ok r →
      (∃ p, env.decode = Except.ok p ∧ p.verifying_key ≠ []) ∧
      cfg.accepted_server_names.contains r.server_name = true) ∧
    (∀ (cfg : Config) (pj : PresentationJSON) (p : Presentation)
       (verify1 verify2 : Except Str PresentationOutput),
      pj.version = cfg.accepted_version → p.verifying_key = [] →
      verify_proof cfg { parse := Except.ok pj, decode := Except.ok p, verify := verify1 } =
        Except.error ⟨("Verifying key is empty or missing").toList⟩ ∧
      verify_proof cfg { parse := Except.ok pj, decode := Except.ok p, verify := verify1 } =
        verify_proof cfg { parse := Except.ok pj, decode := Except.ok p, verify := verify2 }) ∧
    (∀ (cfg : Config) (pj : PresentationJSON) (p : Presentation) (e : Str),
      pj.version = cfg.accepted_version → p.verifying_key ≠ [] →
      verify_proof cfg
          { parse := Except.ok pj, decode := Except.ok p, verify := Except.error e } =
        Except.error ⟨("Presentation verification failed: ").toList ++ e⟩) := by
  refine ⟨?_, ?_, ?_⟩
  · intro cfg env r h
    obtain ⟨-, ⟨p, hdec, hk, -⟩, -, hmem, -, -⟩ := verify_proof_ok_inversion cfg env r h
    exact ⟨⟨p, hdec, hk⟩, hmem⟩
  · intro cfg pj p v1 v2 hv hk
    constructor <;> simp [verify_proof, hv, hk]
  · intro cfg pj p e hv hk
    simp [verify_proof, hv, hk]

/-- Accepted-proof configuration for the witness scenarios: version `1`,
allow-list entry `a`. -/
def c10_cfg : Config :=
  { accepted_version := ("1").toList, accepted_server_names := [("a").toList] }

/-- External outcomes of a fully accepted proof with a lowercase host
header. -/
def c10_env : ExternalEnv :=
  { parse := Except.ok { version := ("1").toList, data := [], meta := meta0 }
    decode := Except.ok { verifying_key := [4] }
    verify := Except.ok
      { server_name := some (("a").toList)
        time := 0
        transcript := some
          { sent := ("GET /users/1/credit-score HTTP/1.1\nhost: a").toList
            recv := ("\"value\":7").toList } } }

/-- The result `verify_proof` produces on `c10_cfg`/`c10_env`. -/
def c10_result : VerificationResult :=
  { is_valid := true
    server_name := ("a").toList
    score := ("7").toList
    verifying_key := ("04").toList
    sent_hex_encoded :=
      ("474554202f75736572732f312f6372656469742d73636f726520485454502f312e310a686f73743a2061").toList
    sent_readable := ("GET /users/1/credit-score HTTP/1.1\nhost: a").toList
    recv_hex_encoded := ("2276616c7565223a37").toList
    recv_readable := ("\"value\":7").toList
    time := 0 }

/-- Witness for C6 (amended) at concrete inputs: the accepted
`c10_env` run has a nonempty key and an allow-listed server name; an
empty-key input is rejected with the empty-key error independently of
the verify outcome; a nonempty-key input with a failing verify surfaces
the verification-failed error. -/
theorem C6_checks_amended_witness :
    ((∃ p, c10_env.decode = Except.ok p ∧ p.verifying_key ≠ []) ∧
      c10_cfg.accepted_server_names.contains c10_result.server_name = true) ∧
    (verify_proof exampleConfig
        { parse := Except.ok pjDefault, decode := Except.ok { verifying_key := [] }
          verify := Except.error (("boom").toList) } =
        Except.error ⟨("Verifying key is empty or missing").toList⟩ ∧
      verify_proof exampleConfig
          { parse := Except.ok pjDefault, decode := Except.ok { verifying_key := [] }
            verify := Except.error (("boom").toList) } =
        verify_proof exampleConfig
          { parse := Except.ok pjDefault, decode := Except.ok { verifying_key := [] }
            verify := Except.error (("other").toList) }) ∧
    verify_proof exampleConfig
        { parse := Except.ok pjDefault, decode := Except.ok { verifying_key := [4, 1, 2] }
          verify := Except.error (("boom").toList) } =
      Except.error ⟨("Presentation verification failed: ").toList ++ ("boom").toList⟩ :=
  ⟨C6_checks_amended.1 c10_cfg c10_env c10_result (by decide),
   C6_checks_amended.2.1 exampleConfig pjDefault { verifying_key := [] }
     (Except.error (("boom").toList)) (Except.error (("other").toList)) (by decide) rfl,
   C6_checks_amended.2.2 exampleConfig pjDefault { verifying_key := [4, 1, 2] }
     (("boom").toList) (by decide) (by decide)⟩

/-- C10: every success result of `verify_proof` has `is_valid = true`,
and its score is a nonempty string of decimal digit characters taken
verbatim (as a contiguous substring, with no numeric parsing) from the
received transcript carried in the result. -/
theorem C10_success_invariants (cfg : Config) (env : ExternalEnv)
    (r : VerificationResult) (h : verify_proof cfg env = Except.ok r) :
    r.is_valid = true ∧ r.score ≠ [] ∧ r.score.all Char.isDigit = true ∧
    r.score <:+: r.recv_readable := by
  obtain ⟨-, -, -, -, hscore, hvalid⟩ := verify_proof_ok_inversion cfg env r h
  obtain ⟨h1, h2, h3⟩ := extractScore_spec _ _ hscore
  exact ⟨hvalid, h1, h2, h3⟩

/-- Witness for C10 at the accepted concrete run. -/
theorem C10_success_invariants_witness :
    verify_proof c10_cfg c10_env = Except.ok c10_result ∧
    (c10_result.is_valid = true ∧ c10_result.score ≠ [] ∧
     c10_result.score.all Char.isDigit = true ∧
     c10_result.score <:+: c10_result.recv_readable) :=
  ⟨by decide, C10_success_invariants c10_cfg c10_env c10_result (by decide)⟩

/-- Witness for C2 (amended) at the identity-signer scenario. -/
theorem C2_signature_is_over_hex_of_quote_witness :
    get_attestation_report_with_signature c2_env =
      Except.ok
        { quote := ("ab").toList
          signature_hex_encoded := ("36313632").toList
          verifying_key_hex_encoded := ("040909").toList
          verifying_key_certificate_chain := none } :=
  (C2_signature_is_over_hex_of_quote c2_km c2_quote).trans (by decide)

/-- Witness for C9 (amended) at concrete inputs: the stored key survives
a repeated initialization, and the phala variant is a call-free no-op. -/
theorem C9_singleton_amended_witness :
    (init_key_material_from_tappd_socket (some c9_km) c9_env).2.1 = some c9_km ∧
    phala_init (some { signing_key := c4_sk }) (Except.error (("x").toList))
        (fun _ => none) =
      some (some { signing_key := c4_sk }, []) :=
  ⟨(C9_singleton_amended.1 c9_km c9_env).1,
   C9_singleton_amended.2 { signing_key := c4_sk } (Except.error (("x").toList))
     (fun _ => none)⟩
